import Mathlib

/-!
Shallow embedding of the Supabase proxy router in src/03-fastapi/src/mobile.py.

The router forwards CRUD and RPC calls to an external REST backing store.
We model:
  * JSON values (the bodies the store sends and receives),
  * the environment variables the module reads,
  * the header-building function _headers,
  * the CRUD wrappers _supabase_get / _supabase_post / _supabase_patch /
    _supabase_delete (parameterised by the backing response),
  * the RPC wrapper _supabase_rpc with its single parameter-name-remapping
    retry, instrumented with the list of request bodies actually POSTed,
  * the dev-JWT cache logic _get_dev_jwt,
  * the route handlers get_item, create_item, update_item, lists_create.

Outbound HTTP is modelled by passing the backing store's response (or, for
the RPC path, a function from request body to response) as an argument.
Python truthiness, dict semantics (ordered association lists, first-match
lookup, insert-or-overwrite) and str operations (find, slicing, split,
strip, lower) are modelled explicitly below.
-/

/-- JSON values, as parsed by r.json() in the source. Numbers are modelled
as integers; no claim depends on non-integral numerics. -/
inductive Json where
  | null : Json
  | bool (b : Bool) : Json
  | num (n : Int) : Json
  | str (s : String) : Json
  | arr (l : List Json) : Json
  | obj (l : List (String × Json)) : Json

/-- Python truthiness of an optional string (None and the empty string are
falsy). Used for env vars, auth tokens and cached tokens. -/
def pyTruthy : Option String → Bool
  | none => false
  | some s => s ≠ ""

/-- Python truthiness of a JSON value, for tests like `if not items:`. -/
def jsonFalsy : Json → Bool
  | .null => true
  | .bool b => !b
  | .num n => n = 0
  | .str s => s = ""
  | .arr l => l.isEmpty
  | .obj l => l.isEmpty

/-- The environment variables mobile.py reads (os.environ.get returns an
optional string). SUPABASE_URL only feeds URL strings and is omitted. -/
structure Env where
  supabaseKey : Option String
  supabaseAnonKey : Option String
  devEmail : Option String
  devPassword : Option String
  devStaticUser : Option String
  devAllowOverrides : Option String
deriving Repr

/-- A backing-store HTTP response: status code, raw text, and the result of
r.json() (none when JSON decoding would raise). -/
structure Resp where
  status : Nat
  text : String
  jsonVal : Option Json

/-- Errors a handler can signal: an HTTPException (status and detail) or an
uncaught Python exception (e.g. r.json() raising, or indexing a non-list). -/
inductive Err where
  | http (status : Nat) (detail : Json) : Err
  | py : Err

/- ---------------- Python str helpers on lists of characters ---------------- -/

/-- The whitespace characters Python's str.strip and str.split treat as
separators (ASCII subset; the source only meets ASCII error texts). -/
def pyIsWs (c : Char) : Bool :=
  c = ' ' || c = '\t' || c = '\n' || c = '\x0d' || c = '\x0b' || c = '\x0c'

/-- Python str.strip: drop leading and trailing whitespace. -/
def pyStrip (s : List Char) : List Char :=
  ((s.dropWhile pyIsWs).reverse.dropWhile pyIsWs).reverse

/-- Python str.lower restricted to ASCII (the tokens compared are ASCII). -/
def pyLower (s : List Char) : List Char :=
  s.map Char.toLower

/-- Index of the first occurrence of pat in s, if any (Python str.find
without a start argument, with -1 rendered as none). -/
def findIdx : List Char → List Char → Option Nat
  | pat, [] => if pat.isEmpty then some 0 else none
  | pat, c :: rest =>
    if pat.isPrefixOf (c :: rest) then some 0
    else (findIdx pat rest).map (· + 1)

/-- Python s.find(pat, start): first occurrence at index ≥ start. -/
def findFrom (s pat : List Char) (start : Nat) : Option Nat :=
  (findIdx pat (s.drop start)).map (· + start)

/-- Python `pat in s` substring containment. -/
def containsSub (s pat : List Char) : Bool :=
  (findIdx pat s).isSome

/-- Python slice s[a:b] for a ≤ b within range. -/
def pySlice (s : List Char) (a b : Nat) : List Char :=
  (s.drop a).take (b - a)

/-- Python s.split(sep) for a one-character separator: splits at every
occurrence, keeping empty pieces. -/
def splitOnChar (sep : Char) : List Char → List (List Char)
  | [] => [[]]
  | c :: rest =>
    let r := splitOnChar sep rest
    if c = sep then [] :: r
    else
      match r with
      | [] => [[c]]
      | piece :: more => (c :: piece) :: more

/-- Python s.split() with no argument: split on whitespace runs, dropping
empty pieces. -/
def wsSplit : List Char → List (List Char)
  | [] => []
  | c :: rest =>
    let r := wsSplit rest
    if pyIsWs c then r
    else
      match rest with
      | [] => [[c]]
      | c2 :: _ =>
        if pyIsWs c2 then [c] :: r
        else
          match r with
          | [] => [[c]]
          | piece :: more => (c :: piece) :: more

/-- Last element of a whitespace split, Python p.split()[-1] (the source
only evaluates it on stripped non-empty strings). -/
def lastWord (p : List Char) : List Char :=
  (wsSplit p).getLastD []

/- ---------------- dict helpers (ordered association lists) ---------------- -/

/-- First-match lookup in an association list, Python d.get(k) / k in d. -/
def lookupA {α : Type} : List (String × α) → String → Option α
  | [], _ => none
  | (k, v) :: rest, key => if k = key then some v else lookupA rest key

/-- Python d[k] = v on a dict: overwrite in place when the key exists,
append otherwise. -/
def insertA {α : Type} : List (String × α) → String → α → List (String × α)
  | [], key, v => [(key, v)]
  | (k, w) :: rest, key, v =>
    if k = key then (key, v) :: rest else (k, w) :: insertA rest key v

/- ---------------- _headers ---------------- -/

/-- Normalisation the source applies to a caller-supplied token: strip
surrounding whitespace, then prepend "Bearer " unless the stripped token
already starts with a case-insensitive "bearer ". -/
def normBearer (t : String) : String :=
  let tok := String.mk (pyStrip t.data)
  if (String.mk (pyLower tok.data)).startsWith "bearer " then tok
  else "Bearer " ++ tok

/-- _headers (mobile.py lines 31-57): build the outbound header dict.
A truthy auth_token becomes the Authorization value via normBearer and the
service key is not consulted; otherwise a truthy SUPABASE_KEY is attached
as "Bearer " + key. A truthy SUPABASE_ANON_KEY is always sent as apikey. -/
def headersFor (env : Env) (auth_token : Option String) : List (String × String) :=
  let base := [("Content-Type", "application/json"), ("Accept", "application/json")]
  let base := if pyTruthy env.supabaseAnonKey
    then base ++ [("apikey", env.supabaseAnonKey.getD "")]
    else base
  if pyTruthy auth_token then
    base ++ [("Authorization", normBearer (auth_token.getD ""))]
  else if pyTruthy env.supabaseKey then
    base ++ [("Authorization", "Bearer " ++ env.supabaseKey.getD "")]
  else base

/- ---------------- CRUD wrappers ---------------- -/

/-- Detail object {"supabase_error": text} raised by the CRUD wrappers. -/
def supabaseErrDetail (text : String) : Json :=
  .obj [("supabase_error", .str text)]

/-- r.json() as the wrappers use it: a decode failure propagates as an
uncaught exception. -/
def respJson (r : Resp) : Except Err Json :=
  match r.jsonVal with
  | some j => .ok j
  | none => .error .py

/-- _supabase_get (lines 60-66), given the backing response: a status ≥ 400
raises HTTPException(500, {"supabase_error": r.text}), otherwise r.json()
is returned. -/
def supabase_get (r : Resp) : Except Err Json :=
  if r.status ≥ 400 then .error (.http 500 (supabaseErrDetail r.text))
  else respJson r

/-- _supabase_post (lines 69-77), given the backing response. -/
def supabase_post (r : Resp) : Except Err Json :=
  if r.status ≥ 400 then .error (.http 500 (supabaseErrDetail r.text))
  else respJson r

/-- _supabase_patch (lines 80-88), given the backing response. -/
def supabase_patch (r : Resp) : Except Err Json :=
  if r.status ≥ 400 then .error (.http 500 (supabaseErrDetail r.text))
  else respJson r

/-- _supabase_delete (lines 91-98), given the backing response: on success
it returns {"deleted": True} rather than the body. -/
def supabase_delete (r : Resp) : Except Err Json :=
  if r.status ≥ 400 then .error (.http 500 (supabaseErrDetail r.text))
  else .ok (.obj [("deleted", .bool true)])

/- ---------------- _supabase_rpc ---------------- -/

/-- Detail object {"supabase_error": text, "function": fn} raised by
_supabase_rpc (always built from the FIRST response's text). -/
def rpcErrDetail (text fn : String) : Json :=
  .obj [("supabase_error", .str text), ("function", .str fn)]

/-- The "function not found" test on the first response's text
(line 127): "PGRST202" or "Could not find the function" occurs in it. -/
def isFnNotFound (text : String) : Bool :=
  containsSub text.data "PGRST202".data ||
  containsSub text.data "Could not find the function".data

/-- The simple fallback mapping (line 131): every argument key gets a
"p_" prefix, order preserved. -/
def pPrefixed (args : List (String × Json)) : List (String × Json) :=
  args.map (fun kv => ("p_" ++ kv.1, kv.2))

/-- Value chosen for one hinted parameter name (lines 149-164): take the
caller's value under the de-prefixed name from args, else from the
p_-prefixed mapping, else default position-like parameters to 0 and the
rest to null. -/
def hintParamValue (args alt : List (String × Json)) (pName : List Char) : Json :=
  let base := if ['p', '_'].isPrefixOf pName then pName.drop 2 else pName
  let baseS := String.mk base
  match lookupA args baseS with
  | some v => v
  | none =>
    match lookupA alt baseS with
    | some v => v
    | none =>
      if containsSub base "position".data || containsSub base "order".data ||
         containsSub base "pos".data
      then .num 0 else .null

/-- The retry body _supabase_rpc computes from the first error text
(lines 129-166): the p_-prefixed mapping, overridden — when the text
carries a "Perhaps you meant to call the function" hint with a
parenthesized parameter list — by a dict keyed by the hinted parameter
names (last whitespace-separated word of each comma-separated piece). -/
def computeAltArgs (text : String) (args : List (String × Json)) :
    List (String × Json) :=
  let alt := pPrefixed args
  let t := text.data
  match findIdx "Perhaps you meant to call the function".data t with
  | none => alt
  | some hintIdx =>
    match findFrom t ['('] hintIdx with
    | none => alt
    | some start =>
      match findFrom t [')'] start with
      | none => alt
      | some stop =>
        let paramsRaw := pySlice t (start + 1) stop
        let params := ((splitOnChar ',' paramsRaw).map pyStrip).filter
          (fun p => !p.isEmpty)
        params.foldl
          (fun mapped p =>
            let pName := lastWord p
            insertA mapped (String.mk pName) (hintParamValue args alt pName))
          []

/-- Resolution of the effective auth token at the top of _supabase_rpc
(lines 111-118): a falsy caller token is replaced by the dev JWT when that
is truthy, otherwise kept. -/
def resolveAuth (auth devJwt : Option String) : Option String :=
  if pyTruthy auth then auth
  else if pyTruthy devJwt then devJwt
  else auth

/-- What _supabase_rpc returns on a 2xx/3xx response: parsed JSON, or the
raw text when JSON decoding raises (lines 170-174 and 178-182). -/
def rpcRet (r : Resp) : Json :=
  match r.jsonVal with
  | some j => j
  | none => .str r.text

/-- _supabase_rpc (lines 101-182), instrumented. send maps (headers, body)
to the backing response; devJwt is the token _get_dev_jwt would supply.
Returns the handler outcome paired with the list of RPC request bodies
POSTed, in order. On a first response with status ≥ 400 whose text matches
isFnNotFound and with a truthy args dict, exactly one retry is made with
computeAltArgs; any other failure raises HTTPException(500) carrying the
first response's text. -/
def supabase_rpc (env : Env) (send : List (String × String) → List (String × Json) → Resp)
    (fn : String) (args : List (String × Json)) (auth devJwt : Option String) :
    Except Err Json × List (List (String × Json)) :=
  let hdrs := headersFor env (resolveAuth auth devJwt)
  let r := send hdrs args
  if r.status ≥ 400 then
    if isFnNotFound r.text then
      if args.isEmpty then
        (.error (.http 500 (rpcErrDetail r.text fn)), [args])
      else
        let alt := computeAltArgs r.text args
        let r2 := send hdrs alt
        if r2.status < 400 then (.ok (rpcRet r2), [args, alt])
        else (.error (.http 500 (rpcErrDetail r.text fn)), [args, alt])
    else
      (.error (.http 500 (rpcErrDetail r.text fn)), [args])
  else
    (.ok (rpcRet r), [args])

/- ---------------- _get_dev_jwt ---------------- -/

/-- The dev-JWT cache _DEV_JWT_CACHE (line 185): token string and expiry
timestamp (seconds since epoch). -/
structure Cache where
  token : Option String
  expires_at : Int
deriving Repr

/-- The auth endpoint's response as _get_dev_jwt consumes it: status,
whether r.json() parses, and the access_token / expires_in fields of the
parsed object (none when absent or null). -/
structure AuthResp where
  status : Nat
  jsonOk : Bool
  access_token : Option String
  expires_in : Option Int
deriving Repr

/-- int(data.get("expires_in") or 3600) (line 220): a missing or falsy
(zero) expires_in falls back to 3600. -/
def effExpiresIn (e : Option Int) : Int :=
  match e with
  | none => 3600
  | some n => if n = 0 then 3600 else n

/-- _get_dev_jwt (lines 188-227). Inputs: env, the current cache, the
current integer time, and the response the auth endpoint would give if
called. Output: (returned token, cache afterwards, whether an outbound
auth request was made). Falsy dev credentials short-circuit to None; a
truthy cached token expiring more than 10 seconds from now is reused;
otherwise a token request is made and a truthy access_token in a
successful response is cached with expiry now + expires_in. -/
def get_dev_jwt (env : Env) (cache : Cache) (now : Int) (resp : AuthResp) :
    Option String × Cache × Bool :=
  if !pyTruthy env.devEmail || !pyTruthy env.devPassword then
    (none, cache, false)
  else if pyTruthy cache.token && decide (cache.expires_at - 10 > now) then
    (cache.token, cache, false)
  else if resp.status ≥ 400 then
    (none, cache, true)
  else if !resp.jsonOk then
    (none, cache, true)
  else
    match resp.access_token with
    | some t =>
      if t ≠ "" then
        (some t, { token := some t, expires_at := now + effExpiresIn resp.expires_in }, true)
      else (none, cache, true)
    | none => (none, cache, true)

/- ---------------- route handlers ---------------- -/

/-- Python items[0] on a parsed JSON value: the head of a non-empty array,
an uncaught exception otherwise (the handler only reaches it on truthy
values, so the empty-array case cannot occur there). -/
def pyIndexZero : Json → Except Err Json
  | .arr (x :: _) => .ok x
  | _ => .error .py

/-- get_item (lines 239-244), given the backing response to the filtered
GET: falsy items raise HTTPException(404, "item not found"), otherwise
items[0] is returned. -/
def get_item (r : Resp) : Except Err Json :=
  match supabase_get r with
  | .error e => .error e
  | .ok items =>
    if jsonFalsy items then .error (.http 404 (.str "item not found"))
    else pyIndexZero items

/-- The unwrapping shared by create_item and update_item (lines 255, 261):
row[0] if isinstance(row, list) and row else row. -/
def unwrapRow : Json → Json
  | .arr (x :: _) => x
  | v => v

/-- create_item (lines 247-255), given the posted payload and the backing
response: a non-dict payload raises 400, otherwise the POSTed row is
unwrapped. -/
def create_item (payload : Json) (r : Resp) : Except Err Json :=
  match payload with
  | .obj _ =>
    match supabase_post r with
    | .error e => .error e
    | .ok row => .ok (unwrapRow row)
  | _ => .error (.http 400 (.str "invalid payload"))

/-- update_item (lines 258-261), given the backing response to the PATCH. -/
def update_item (r : Resp) : Except Err Json :=
  match supabase_patch r with
  | .error e => .error e
  | .ok row => .ok (unwrapRow row)

/- ---------------- lists_create ---------------- -/

/-- payload.get(key) as the handlers use it before an `is None` test: a
missing key and an explicit JSON null both behave as Python None. -/
def jgetOpt (payload : List (String × Json)) (key : String) : Option Json :=
  match lookupA payload key with
  | some .null => none
  | v => v

/-- The friendly-key / p_-prefixed-key fallback chain of lists_create
(lines 297-306): the friendly key wins when it yields a non-None value. -/
def resolveKey (payload : List (String × Json)) (friendly pKey : String) : Option Json :=
  match jgetOpt payload friendly with
  | some v => some v
  | none => jgetOpt payload pKey

/-- Validation of ListsCreateModel (lines 310-319), modelled from pydantic
field semantics for title: str, color: Optional[str] = None,
position: Optional[int] = 0. The constructor is called with every field
explicit, so a None position stays None (the field default does not
apply); validation fails when title is None or any field has the wrong
type. Returns the validated (title, color, position). -/
def listsCreateValidate (title color position : Option Json) :
    Except Err (String × Option String × Option Int) :=
  match title with
  | some (.str t) =>
    match color with
    | none => do
      match position with
      | none => .ok (t, none, none)
      | some (.num n) => .ok (t, none, some n)
      | some _ => .error (.http 400 (.str "validation error: position"))
    | some (.str c) =>
      match position with
      | none => .ok (t, some c, none)
      | some (.num n) => .ok (t, some c, some n)
      | some _ => .error (.http 400 (.str "validation error: position"))
    | some _ => .error (.http 400 (.str "validation error: color"))
  | _ => .error (.http 400 (.str "validation error: title"))

/-- Option String as a JSON value (None becomes null). -/
def jsonOfOptStr : Option String → Json
  | none => .null
  | some s => .str s

/-- Option Int as a JSON value (None becomes null). -/
def jsonOfOptInt : Option Int → Json
  | none => .null
  | some n => .num n

/-- lists_create (lines 278-340), up to the outbound RPC call: given the
request's Authorization header and the body, produce either an HTTP 400
error or the RPC invocation (function name, argument dict, auth token
forwarded). A falsy Authorization combined with DEV_STATIC_USER_ID and
DEV_ALLOW_RPC_OVERRIDES == "1" diverts to lists_create_dev with a p_user
argument and no token; otherwise lists_create is called with
{p_title, p_color, p_position} and the caller's token. -/
def lists_create (env : Env) (auth : Option String) (payload : Json) :
    Except Err (String × List (String × Json) × Option String) :=
  let pl := match payload with
    | .obj l => l
    | _ => []
  let title := resolveKey pl "title" "p_title"
  let color := resolveKey pl "color" "p_color"
  let position := resolveKey pl "position" "p_position"
  match listsCreateValidate title color position with
  | .error e => .error e
  | .ok (t, c, p) =>
    let rpcArgs : List (String × Json) :=
      [("p_title", .str t), ("p_color", jsonOfOptStr c), ("p_position", jsonOfOptInt p)]
    if !pyTruthy auth && pyTruthy env.devStaticUser && env.devAllowOverrides = some "1" then
      .ok ("lists_create_dev",
           rpcArgs ++ [("p_user", .str (env.devStaticUser.getD ""))], none)
    else
      .ok ("lists_create", rpcArgs, auth)

/-- Whether a JSON value is a non-empty array (the guard of the row
unwrapping in create_item/update_item). -/
def isNonEmptyArr : Json → Bool
  | .arr (_ :: _) => true
  | _ => false

/-- The HTTP status a handler outcome raises, if any. -/
def errStatus {α : Type} : Except Err α → Option Nat
  | .error (.http s _) => some s
  | _ => none

/- ---------------- concrete fixtures used by witnesses ---------------- -/

/-- An environment with only the service-role key configured. -/
def envKeyOnly : Env :=
  { supabaseKey := some "SECRET", supabaseAnonKey := none, devEmail := none,
    devPassword := none, devStaticUser := none, devAllowOverrides := none }

/-- An environment with the lists_create dev override enabled
(DEV_STATIC_USER_ID set and DEV_ALLOW_RPC_OVERRIDES = "1"). -/
def envDevOverride : Env :=
  { supabaseKey := some "SECRET", supabaseAnonKey := none, devEmail := none,
    devPassword := none, devStaticUser := some "u-123", devAllowOverrides := some "1" }

/-- A backing store that always answers 404 with a PGRST202 body. -/
def sendNotFound : List (String × String) → List (String × Json) → Resp :=
  fun _ _ => { status := 404, text := "PGRST202", jsonVal := none }

/-- A backing store that always answers 500 with a non-PGRST202 body. -/
def sendBoom : List (String × String) → List (String × Json) → Resp :=
  fun _ _ => { status := 500, text := "boom", jsonVal := none }

/- ---------------- C1 ---------------- -/

/-- C1 (as stated, refuted): a caller-supplied raw token "abc" is not used
verbatim as the Authorization header; the code strips it and prepends
"Bearer ". -/
theorem headers_token_verbatim_cex :
    lookupA (headersFor envKeyOnly (some "abc")) "Authorization" ≠ some "abc" ∧
    lookupA (headersFor envKeyOnly (some "abc")) "Authorization" = some "Bearer abc" := by
  exact ⟨by decide, rfl⟩

/-- C1 (amended): for every non-empty caller-supplied token, the
Authorization header is the token normalised by normBearer (stripped of
surrounding whitespace and prefixed with "Bearer " unless already starting
with a case-insensitive "bearer "); a token already in that shape passes
verbatim; the headers do not depend on SUPABASE_KEY in any way; and the
RPC path keeps the caller token rather than consulting the dev JWT. -/
theorem headers_caller_token (env : Env) (t : String) (k' devJwt : Option String)
    (h : t ≠ "") :
    lookupA (headersFor env (some t)) "Authorization" = some (normBearer t)
    ∧ headersFor { env with supabaseKey := k' } (some t) = headersFor env (some t)
    ∧ resolveAuth (some t) devJwt = some t
    ∧ (pyStrip t.data = t.data →
        (String.mk (pyLower t.data)).startsWith "bearer " = true →
        normBearer t = t) := by
  have htr : pyTruthy (some t) = true := by simp [pyTruthy, h]
  refine ⟨?_, ?_, ?_, ?_⟩
  · simp only [headersFor, htr, if_true]
    by_cases ha : pyTruthy env.supabaseAnonKey <;>
      simp only [ha, if_true, if_false, Bool.false_eq_true] <;>
      simp [lookupA]
  · simp only [headersFor, htr, if_true]
  · simp [resolveAuth, pyTruthy, h]
  · intro hs hb
    simp only [normBearer, hs]
    have : String.mk t.data = t := rfl
    rw [this, hb]
    simp

/-- Witness for C1's amended theorem at t = " Bearer xyz" with a devJwt
present and a different service key: the Authorization header is the
stripped token, headers ignore the service key, and the caller token wins
over the dev JWT. -/
theorem headers_caller_token_witness :
    lookupA (headersFor envKeyOnly (some " Bearer xyz")) "Authorization"
        = some (normBearer " Bearer xyz")
    ∧ headersFor { envKeyOnly with supabaseKey := some "OTHER" } (some " Bearer xyz")
        = headersFor envKeyOnly (some " Bearer xyz")
    ∧ resolveAuth (some " Bearer xyz") (some "devjwt") = some " Bearer xyz"
    ∧ (pyStrip " Bearer xyz".data = " Bearer xyz".data →
        (String.mk (pyLower " Bearer xyz".data)).startsWith "bearer " = true →
        normBearer " Bearer xyz" = " Bearer xyz") :=
  headers_caller_token envKeyOnly " Bearer xyz" (some "OTHER") (some "devjwt") (by decide)

/- ---------------- C2 ---------------- -/

/-- C2 (as stated, refuted): with an empty argument dict and a first
response that is a PGRST202 "function not found" error, _supabase_rpc does
not retry — only one POST is made, not the two the claim requires. -/
theorem rpc_retry_once_cex :
    (sendNotFound (headersFor envKeyOnly (resolveAuth none none)) []).status ≥ 400
    ∧ isFnNotFound (sendNotFound (headersFor envKeyOnly (resolveAuth none none)) []).text = true
    ∧ (supabase_rpc envKeyOnly sendNotFound "f" [] none none).2.length ≠ 2 := by
  refine ⟨by decide, by decide, ?_⟩
  decide

/-- C2 (amended): for every RPC call with a NON-EMPTY argument dict whose
first response has status ≥ 400 and a "function not found" text, exactly
one retry is made, whose body is computeAltArgs of the first error text
(the p_-prefixed remapping, overridden by the hinted parameter names when
a "Perhaps you meant to call the function" hint with a parenthesized list
is present, position-like missing parameters defaulting to 0 and others to
null); the POST trace is exactly the original body followed by the remapped
body, and no call ever makes more than two POSTs. -/
theorem rpc_retry_once (env : Env)
    (send : List (String × String) → List (String × Json) → Resp)
    (fn : String) (args args2 : List (String × Json)) (auth devJwt : Option String)
    (hne : args ≠ [])
    (h1 : (send (headersFor env (resolveAuth auth devJwt)) args).status ≥ 400)
    (h2 : isFnNotFound (send (headersFor env (resolveAuth auth devJwt)) args).text = true) :
    (supabase_rpc env send fn args auth devJwt).2 =
      [args, computeAltArgs (send (headersFor env (resolveAuth auth devJwt)) args).text args]
    ∧ (findIdx "Perhaps you meant to call the function".data
         (send (headersFor env (resolveAuth auth devJwt)) args).text.data = none →
       computeAltArgs (send (headersFor env (resolveAuth auth devJwt)) args).text args
         = pPrefixed args)
    ∧ (supabase_rpc env send fn args2 auth devJwt).2.length ≤ 2 := by
  refine ⟨?_, ?_, ?_⟩
  · have hno : args.isEmpty = false := by
      cases args with
      | nil => exact absurd rfl hne
      | cons a l => rfl
    simp only [supabase_rpc, h1, if_true, h2, hno, Bool.false_eq_true, if_false, ge_iff_le]
    by_cases hr2 : (send (headersFor env (resolveAuth auth devJwt))
        (computeAltArgs (send (headersFor env (resolveAuth auth devJwt)) args).text args)).status < 400 <;>
      simp [hr2, h1, h2]
  · intro hn
    simp only [computeAltArgs, hn]
  · simp only [supabase_rpc]
    by_cases hs : (send (headersFor env (resolveAuth auth devJwt)) args2).status ≥ 400 <;>
      by_cases hf : isFnNotFound (send (headersFor env (resolveAuth auth devJwt)) args2).text <;>
      by_cases he : args2.isEmpty <;>
      by_cases hr2 : (send (headersFor env (resolveAuth auth devJwt))
        (computeAltArgs (send (headersFor env (resolveAuth auth devJwt)) args2).text args2)).status < 400 <;>
      simp [hs, hf, he, hr2]

/-- Witness for C2's amended theorem: a PGRST202 first response with args
{a: 1} yields exactly the two POST bodies {a: 1} then {p_a: 1}. -/
theorem rpc_retry_once_witness :
    (supabase_rpc envKeyOnly sendNotFound "f" [("a", Json.num 1)] none none).2 =
      [[("a", Json.num 1)],
       computeAltArgs (sendNotFound (headersFor envKeyOnly (resolveAuth none none)) [("a", Json.num 1)]).text
         [("a", Json.num 1)]]
    ∧ (findIdx "Perhaps you meant to call the function".data
         (sendNotFound (headersFor envKeyOnly (resolveAuth none none)) [("a", Json.num 1)]).text.data = none →
       computeAltArgs (sendNotFound (headersFor envKeyOnly (resolveAuth none none)) [("a", Json.num 1)]).text
         [("a", Json.num 1)] = pPrefixed [("a", Json.num 1)])
    ∧ (supabase_rpc envKeyOnly sendNotFound "f" [("a", Json.num 1)] none none).2.length ≤ 2 :=
  rpc_retry_once envKeyOnly sendNotFound "f" [("a", Json.num 1)] [("a", Json.num 1)] none none
    (by simp) (by decide) (by decide)

/- ---------------- C10 ---------------- -/

/-- C10: an RPC call with an empty argument dict whose first response is a
"function not found" error raises HTTPException(500) immediately: a single
POST is made and no retry is attempted. -/
theorem rpc_empty_args_no_retry (env : Env)
    (send : List (String × String) → List (String × Json) → Resp)
    (fn : String) (auth devJwt : Option String)
    (h1 : (send (headersFor env (resolveAuth auth devJwt)) []).status ≥ 400)
    (h2 : isFnNotFound (send (headersFor env (resolveAuth auth devJwt)) []).text = true) :
    supabase_rpc env send fn [] auth devJwt =
      (.error (.http 500 (rpcErrDetail (send (headersFor env (resolveAuth auth devJwt)) []).text fn)),
       [[]]) := by
  simp [supabase_rpc, h1, h2]

/-- Witness for C10 with the PGRST202 backing store. -/
theorem rpc_empty_args_no_retry_witness :
    supabase_rpc envKeyOnly sendNotFound "g" [] none none =
      (.error (.http 500 (rpcErrDetail
          (sendNotFound (headersFor envKeyOnly (resolveAuth none none)) []).text "g")),
       [[]]) :=
  rpc_empty_args_no_retry envKeyOnly sendNotFound "g" none none (by decide) (by decide)

/- ---------------- C3 ---------------- -/

/-- C3: every backing call (GET, POST, PATCH, DELETE, or RPC whose retry
does not succeed) with a response status ≥ 400 raises HTTPException(500)
whose detail carries the upstream response text, and no value is returned
to the caller. -/
theorem backing_error_forwarded (r : Resp) (env : Env)
    (send : List (String × String) → List (String × Json) → Resp)
    (fn : String) (args : List (String × Json)) (auth devJwt : Option String)
    (h : r.status ≥ 400)
    (h1 : (send (headersFor env (resolveAuth auth devJwt)) args).status ≥ 400)
    (h2 : isFnNotFound (send (headersFor env (resolveAuth auth devJwt)) args).text = true →
      args ≠ [] →
      (send (headersFor env (resolveAuth auth devJwt))
        (computeAltArgs (send (headersFor env (resolveAuth auth devJwt)) args).text args)).status ≥ 400) :
    supabase_get r = .error (.http 500 (supabaseErrDetail r.text))
    ∧ supabase_post r = .error (.http 500 (supabaseErrDetail r.text))
    ∧ supabase_patch r = .error (.http 500 (supabaseErrDetail r.text))
    ∧ supabase_delete r = .error (.http 500 (supabaseErrDetail r.text))
    ∧ (supabase_rpc env send fn args auth devJwt).1 =
        .error (.http 500 (rpcErrDetail (send (headersFor env (resolveAuth auth devJwt)) args).text fn)) := by
  refine ⟨by simp [supabase_get, h], by simp [supabase_post, h],
    by simp [supabase_patch, h], by simp [supabase_delete, h], ?_⟩
  simp only [supabase_rpc, h1, if_true, ge_iff_le]
  by_cases hf : isFnNotFound (send (headersFor env (resolveAuth auth devJwt)) args).text
  · by_cases he : args.isEmpty
    · simp [h1, hf, he]
    · have hne : args ≠ [] := by
        cases args with
        | nil => simp at he
        | cons a l => simp
      have hr2 := h2 hf hne
      have : ¬ (send (headersFor env (resolveAuth auth devJwt))
          (computeAltArgs (send (headersFor env (resolveAuth auth devJwt)) args).text args)).status < 400 := by
        omega
      simp [h1, hf, he, this]
  · simp [h1, hf]

/-- Witness for C3: a 500 "boom" response (not a function-not-found text)
is forwarded as HTTPException(500, {"supabase_error": "boom"}) by every
wrapper. -/
theorem backing_error_forwarded_witness :
    supabase_get ⟨500, "boom", none⟩ = .error (.http 500 (supabaseErrDetail "boom"))
    ∧ supabase_post ⟨500, "boom", none⟩ = .error (.http 500 (supabaseErrDetail "boom"))
    ∧ supabase_patch ⟨500, "boom", none⟩ = .error (.http 500 (supabaseErrDetail "boom"))
    ∧ supabase_delete ⟨500, "boom", none⟩ = .error (.http 500 (supabaseErrDetail "boom"))
    ∧ (supabase_rpc envKeyOnly sendBoom "f" [("a", Json.num 1)] none none).1 =
        .error (.http 500 (rpcErrDetail
          (sendBoom (headersFor envKeyOnly (resolveAuth none none)) [("a", Json.num 1)]).text "f")) :=
  backing_error_forwarded ⟨500, "boom", none⟩ envKeyOnly sendBoom "f" [("a", Json.num 1)] none none
    (by decide) (by decide) (fun hf _ => absurd hf (by decide))

/- ---------------- C4 ---------------- -/

/-- C4: with dev credentials configured and a truthy cached token whose
expiry is more than 10 seconds in the future, _get_dev_jwt returns the
cached token, makes no outbound auth request, and leaves the cache
unchanged. -/
theorem dev_jwt_cache_hit (env : Env) (cache : Cache) (now : Int) (resp : AuthResp)
    (he : pyTruthy env.devEmail = true) (hp : pyTruthy env.devPassword = true)
    (ht : pyTruthy cache.token = true) (hx : cache.expires_at - 10 > now) :
    get_dev_jwt env cache now resp = (cache.token, cache, false) := by
  simp [get_dev_jwt, he, hp, ht, hx]

/-- Witness for C4: a cached token expiring at time 100 is reused at
time 0 with no auth request. -/
theorem dev_jwt_cache_hit_witness :
    get_dev_jwt
      { supabaseKey := none, supabaseAnonKey := none, devEmail := some "dev@x",
        devPassword := some "pw", devStaticUser := none, devAllowOverrides := none }
      { token := some "tok", expires_at := 100 } 0 ⟨500, false, none, none⟩ =
      (some "tok", { token := some "tok", expires_at := 100 }, false) :=
  dev_jwt_cache_hit _ _ 0 _ (by decide) (by decide) (by decide) (by decide)

/- ---------------- C5 ---------------- -/

/-- C5: with dev credentials configured but no valid cached token, a new
token is requested; a successful response with a truthy access_token is
returned and cached with expiry now + expires_in, a missing expires_in
defaulting to 3600. -/
theorem dev_jwt_cache_refresh (env : Env) (cache : Cache) (now : Int) (resp : AuthResp)
    (t : String)
    (he : pyTruthy env.devEmail = true) (hp : pyTruthy env.devPassword = true)
    (hmiss : pyTruthy cache.token = false ∨ ¬ cache.expires_at - 10 > now)
    (hs : resp.status < 400) (hj : resp.jsonOk = true)
    (ht : resp.access_token = some t) (hne : t ≠ "") :
    get_dev_jwt env cache now resp =
      (some t, { token := some t, expires_at := now + effExpiresIn resp.expires_in }, true)
    ∧ effExpiresIn none = 3600 := by
  have hcold : (pyTruthy cache.token && decide (cache.expires_at - 10 > now)) = false := by
    rcases hmiss with hm | hm <;> simp [hm]
  have hs' : ¬ resp.status ≥ 400 := by omega
  refine ⟨?_, rfl⟩
  simp [get_dev_jwt, he, hp, hcold, hs', hj, ht, hne]

/-- Witness for C5: an expired cache entry is refreshed from a 200 response
carrying access_token "new" and expires_in 7200; the cache then expires at
now + 7200. -/
theorem dev_jwt_cache_refresh_witness :
    get_dev_jwt
      { supabaseKey := none, supabaseAnonKey := none, devEmail := some "dev@x",
        devPassword := some "pw", devStaticUser := none, devAllowOverrides := none }
      { token := some "old", expires_at := 5 } 1000 ⟨200, true, some "new", some 7200⟩ =
      (some "new", { token := some "new", expires_at := 1000 + effExpiresIn (some 7200) }, true)
    ∧ effExpiresIn none = 3600 :=
  dev_jwt_cache_refresh _ _ 1000 _ "new" (by decide) (by decide) (Or.inr (by decide))
    (by decide) (by decide) (by decide) (by decide)

/- ---------------- C6 ---------------- -/

/-- C6: with neither dev email nor dev password set, _get_dev_jwt returns
None without requesting anything, and the outbound request's Authorization
header (no caller token) falls back to "Bearer " + SUPABASE_KEY for a
truthy SUPABASE_KEY. -/
theorem dev_jwt_fallback_service_key (env : Env) (cache : Cache) (now : Int)
    (resp : AuthResp) (k : String)
    (he : env.devEmail = none) (hp : env.devPassword = none)
    (hk : env.supabaseKey = some k) (hkne : k ≠ "") :
    get_dev_jwt env cache now resp = (none, cache, false)
    ∧ lookupA (headersFor env (resolveAuth none (get_dev_jwt env cache now resp).1))
        "Authorization" = some ("Bearer " ++ k) := by
  have hjwt : get_dev_jwt env cache now resp = (none, cache, false) := by
    simp [get_dev_jwt, he, pyTruthy]
  refine ⟨hjwt, ?_⟩
  rw [hjwt]
  have hres : resolveAuth none none = none := by simp [resolveAuth, pyTruthy]
  rw [hres]
  have htr : pyTruthy (none : Option String) = false := rfl
  have hks : pyTruthy env.supabaseKey = true := by simp [pyTruthy, hk, hkne]
  simp only [headersFor, htr, Bool.false_eq_true, if_false, hks, if_true, hk]
  by_cases ha : pyTruthy env.supabaseAnonKey <;>
    simp only [ha, if_true, if_false, Bool.false_eq_true] <;>
    simp [lookupA, pyTruthy, hkne]

/-- Witness for C6 in an environment with only SUPABASE_KEY = "SECRET". -/
theorem dev_jwt_fallback_service_key_witness :
    get_dev_jwt envKeyOnly { token := none, expires_at := 0 } 0 ⟨200, true, none, none⟩ =
      (none, { token := none, expires_at := 0 }, false)
    ∧ lookupA (headersFor envKeyOnly (resolveAuth none
        (get_dev_jwt envKeyOnly { token := none, expires_at := 0 } 0 ⟨200, true, none, none⟩).1))
        "Authorization" = some ("Bearer " ++ "SECRET") :=
  dev_jwt_fallback_service_key envKeyOnly _ 0 _ "SECRET" rfl rfl rfl (by decide)

/- ---------------- C7 ---------------- -/

/-- C7: on a successful create_item or update_item call whose backing
response parses to j, the handler returns unwrapRow j: the first element
when j is a non-empty array, and j unchanged otherwise. -/
theorem create_update_unwrap (pl : List (String × Json)) (r : Resp) (j x : Json)
    (xs : List Json)
    (h : r.status < 400) (hj : r.jsonVal = some j) :
    create_item (.obj pl) r = .ok (unwrapRow j)
    ∧ update_item r = .ok (unwrapRow j)
    ∧ unwrapRow (.arr (x :: xs)) = x
    ∧ (isNonEmptyArr j = false → unwrapRow j = j) := by
  have hs : ¬ r.status ≥ 400 := by omega
  refine ⟨?_, ?_, rfl, ?_⟩
  · simp [create_item, supabase_post, respJson, hs, hj]
  · simp [update_item, supabase_patch, respJson, hs, hj]
  · intro hne
    cases j with
    | arr l =>
      cases l with
      | nil => rfl
      | cons y ys => simp [isNonEmptyArr] at hne
    | null => rfl
    | bool b => rfl
    | num n => rfl
    | str s => rfl
    | obj o => rfl

/-- Witness for C7: a 200 response whose body is the one-element array
[{id: 1}] is unwrapped to {id: 1} by both handlers. -/
theorem create_update_unwrap_witness :
    create_item (.obj [("id", Json.num 1)])
        ⟨200, "", some (.arr [.obj [("id", Json.num 1)]])⟩ =
      .ok (unwrapRow (.arr [.obj [("id", Json.num 1)]]))
    ∧ update_item ⟨200, "", some (.arr [.obj [("id", Json.num 1)]])⟩ =
      .ok (unwrapRow (.arr [.obj [("id", Json.num 1)]]))
    ∧ unwrapRow (.arr (Json.obj [("id", Json.num 1)] :: [])) = .obj [("id", Json.num 1)]
    ∧ (isNonEmptyArr (.arr [.obj [("id", Json.num 1)]]) = false →
        unwrapRow (.arr [.obj [("id", Json.num 1)]]) = .arr [.obj [("id", Json.num 1)]]) :=
  create_update_unwrap [("id", Json.num 1)] ⟨200, "", some (.arr [.obj [("id", Json.num 1)]])⟩
    (.arr [.obj [("id", Json.num 1)]]) (.obj [("id", Json.num 1)]) [] (by decide) rfl

/- ---------------- C8 ---------------- -/

/-- C8 (as stated, refuted at two inputs): a lists_create body
{title: "inbox"} with an Authorization header forwards p_position as
null, not the claimed default 0 (the Pydantic field default does not
apply because the handler passes position=None explicitly); and with no
Authorization header under DEV_STATIC_USER_ID = "u-123",
DEV_ALLOW_RPC_OVERRIDES = "1", the handler does not forward exactly
{p_title, p_color, p_position}: it adds p_user and calls
lists_create_dev. -/
theorem lists_create_position_cex :
    lists_create envKeyOnly (some "Bearer x") (.obj [("title", .str "inbox")]) =
      .ok ("lists_create",
           [("p_title", .str "inbox"), ("p_color", .null), ("p_position", .null)],
           some "Bearer x")
    ∧ lookupA [("p_title", Json.str "inbox"), ("p_color", Json.null), ("p_position", Json.null)]
        "p_position" = some Json.null
    ∧ Json.null ≠ Json.num 0
    ∧ lists_create envDevOverride none (.obj [("title", .str "inbox")]) =
      .ok ("lists_create_dev",
           [("p_title", .str "inbox"), ("p_color", .null), ("p_position", .null),
            ("p_user", .str "u-123")],
           none)
    ∧ lookupA [("p_title", Json.str "inbox"), ("p_color", Json.null), ("p_position", Json.null),
               ("p_user", Json.str "u-123")] "p_user" = some (Json.str "u-123") := by
  refine ⟨rfl, rfl, ?_, rfl, rfl⟩
  intro h
  exact Json.noConfusion h

/-- C8 (amended): for every request, lists_create resolves each field
from the friendly key, falling back to the p_-prefixed key; when no
Authorization header is supplied, DEV_STATIC_USER_ID is set and
DEV_ALLOW_RPC_OVERRIDES is "1", it forwards {p_title, p_color,
p_position, p_user} to lists_create_dev with no token, and otherwise it
forwards exactly {p_title, p_color, p_position} to lists_create with the
caller's token; a missing color or position is forwarded as null (not
0 — the model field defaults never apply because every field is passed
explicitly); a payload whose resolved title is missing is rejected with
HTTP 400. -/
theorem lists_create_remap (env : Env) (auth : Option String) (t : String)
    (pl pl2 : List (String × Json)) (c : Option String) (p : Option Int)
    (htitle : resolveKey pl "title" "p_title" = some (.str t))
    (hcolor : resolveKey pl "color" "p_color" = Option.map Json.str c)
    (hpos : resolveKey pl "position" "p_position" = Option.map Json.num p)
    (h2 : resolveKey pl2 "title" "p_title" = none) :
    lists_create env auth (.obj pl) =
      (if !pyTruthy auth && pyTruthy env.devStaticUser && env.devAllowOverrides = some "1" then
        .ok ("lists_create_dev",
             [("p_title", .str t), ("p_color", jsonOfOptStr c), ("p_position", jsonOfOptInt p),
              ("p_user", .str (env.devStaticUser.getD ""))],
             none)
      else
        .ok ("lists_create",
             [("p_title", .str t), ("p_color", jsonOfOptStr c), ("p_position", jsonOfOptInt p)],
             auth))
    ∧ errStatus (lists_create env auth (.obj pl2)) = some 400 := by
  constructor
  · simp only [lists_create, htitle, hcolor, hpos]
    by_cases hg : (!pyTruthy auth && pyTruthy env.devStaticUser
        && env.devAllowOverrides = some "1") = true <;>
      cases c <;> cases p <;>
      simp [listsCreateValidate, jsonOfOptStr, jsonOfOptInt, hg]
  · simp only [lists_create, h2]
    simp [listsCreateValidate, errStatus]

/-- Witness for C8's amended theorem at the no-Authorization,
override-disabled input: {title: "inbox", p_color: "#f00"} maps to
p_title = "inbox", p_color = "#f00", p_position = null, forwarded to
lists_create with no token, and the empty payload is rejected with
status 400. -/
theorem lists_create_remap_witness :
    lists_create envKeyOnly none (.obj [("title", .str "inbox"), ("p_color", .str "#f00")]) =
      (if !pyTruthy (none : Option String) && pyTruthy envKeyOnly.devStaticUser
          && envKeyOnly.devAllowOverrides = some "1" then
        .ok ("lists_create_dev",
             [("p_title", .str "inbox"), ("p_color", jsonOfOptStr (some "#f00")),
              ("p_position", jsonOfOptInt none),
              ("p_user", .str (envKeyOnly.devStaticUser.getD ""))],
             none)
      else
        .ok ("lists_create",
             [("p_title", .str "inbox"), ("p_color", jsonOfOptStr (some "#f00")),
              ("p_position", jsonOfOptInt none)],
             none))
    ∧ errStatus (lists_create envKeyOnly none (.obj [])) = some 400 :=
  lists_create_remap envKeyOnly none "inbox"
    [("title", .str "inbox"), ("p_color", .str "#f00")] [] (some "#f00") none
    rfl rfl rfl rfl

/- ---------------- C9 ---------------- -/

/-- C9: get_item raises HTTPException(404, "item not found") when the
backing store returns an empty list, and returns the first element of a
non-empty returned list. -/
theorem get_item_found_or_404 (r r2 : Resp) (x : Json) (xs : List Json)
    (h : r.status < 400) (hl : r.jsonVal = some (.arr []))
    (h2 : r2.status < 400) (hl2 : r2.jsonVal = some (.arr (x :: xs))) :
    get_item r = .error (.http 404 (.str "item not found"))
    ∧ get_item r2 = .ok x := by
  have hs : ¬ r.status ≥ 400 := by omega
  have hs2 : ¬ r2.status ≥ 400 := by omega
  constructor
  · simp [get_item, supabase_get, respJson, hs, hl, jsonFalsy]
  · simp [get_item, supabase_get, respJson, hs2, hl2, jsonFalsy, pyIndexZero]

/-- Witness for C9: an empty array yields the 404, and the array
[{id: 7}] yields {id: 7}. -/
theorem get_item_found_or_404_witness :
    get_item ⟨200, "[]", some (.arr [])⟩ = .error (.http 404 (.str "item not found"))
    ∧ get_item ⟨200, "", some (.arr [.obj [("id", Json.num 7)]])⟩ =
        .ok (.obj [("id", Json.num 7)]) :=
  get_item_found_or_404 ⟨200, "[]", some (.arr [])⟩
    ⟨200, "", some (.arr [.obj [("id", Json.num 7)]])⟩
    (.obj [("id", Json.num 7)]) [] (by decide) rfl (by decide) rfl
